import Mathlib

/-!
Formal model of the EDRP school-management backend core:
the fee/payment ledger (src/app/api/finance.py, src/app/schemas/finance.py)
and the GPS attendance geofencing subsystem (src/app/api/attendance.py,
src/app/services/gps.py).

Monetary amounts are modelled as rationals (the source uses fixed-point
decimals with two fractional digits). Coordinates and distances are
modelled as real numbers (the source uses floats). Database tables are
modelled as Lean lists; the SQLAlchemy query/mutate calls are modelled as
list lookups and functional updates. HTTP exceptions are modelled as an
error value returned together with the unchanged database state, since a
raised HTTPException aborts the handler before any commit.
-/

namespace EDRP

/-- Error outcomes surfaced by the handlers: HTTPException with status 404
or 400 (src/app/api), and pydantic request-validation failure (422) coming
from the schema layer (src/app/schemas/finance.py). -/
inductive ApiError where
  | notFound (detail : String)
  | badRequest (detail : String)
  | validationError (detail : String)
deriving DecidableEq

/-! ## Finance data model -/

/-- A StudentFee row: `amount_due`, `amount_paid` decimals and a free-form
`status` string ("pending" / "partial" / "paid" / "overdue"). -/
structure StudentFee where
  id : Nat
  student_id : Nat
  amount_due : ℚ
  amount_paid : ℚ
  status : String
deriving DecidableEq

/-- A Payment row as created by the handlers. -/
structure Payment where
  student_fee_id : Nat
  amount : ℚ
  payment_method : String
  payment_reference : Option String
deriving DecidableEq

/-- The finance portion of the database: the StudentFee and Payment tables. -/
structure FinanceDB where
  fees : List StudentFee
  payments : List Payment
deriving DecidableEq

/-- Request body of POST /payments (schema `PaymentCreate`,
src/app/schemas/finance.py lines 78-85). -/
structure PaymentCreate where
  student_fee_id : Nat
  amount : ℚ
  payment_method : String
  payment_reference : Option String

/-- The query `select(StudentFee).where(StudentFee.id == fid)` followed by `.first()`. -/
def findFee (db : FinanceDB) (fid : Nat) : Option StudentFee :=
  db.fees.find? (fun f => f.id == fid)

/-- The ORM mutation of a fetched StudentFee row: the row with the same id
is replaced by its updated value at commit time. -/
def updateFeeById (db : FinanceDB) (fee : StudentFee) : FinanceDB :=
  { db with fees := db.fees.map (fun f => if f.id == fee.id then fee else f) }

/-- POST /payments (`create_payment`, src/app/api/finance.py lines 529-577),
after the role and school authorization checks. The pydantic schema
validates `amount` as condecimal(gt=0) before the handler runs, so a
non-positive amount is rejected at the validation layer. On success the
handler appends a Payment row, increments `amount_paid` and recomputes the
status: "paid" when `amount_paid >= amount_due`, otherwise "partial". -/
def create_payment (db : FinanceDB) (payment_data : PaymentCreate) :
    FinanceDB × Except ApiError Payment :=
  if payment_data.amount ≤ 0 then
    (db, .error (.validationError "ensure this value is greater than 0"))
  else
    match findFee db payment_data.student_fee_id with
    | none => (db, .error (.notFound "Student fee not found"))
    | some fee =>
      let db_payment : Payment :=
        { student_fee_id := payment_data.student_fee_id
          amount := payment_data.amount
          payment_method := payment_data.payment_method
          payment_reference := payment_data.payment_reference }
      let new_paid := fee.amount_paid + payment_data.amount
      let new_status := if fee.amount_due ≤ new_paid then "paid" else "partial"
      let fee' := { fee with amount_paid := new_paid, status := new_status }
      ({ fees := (updateFeeById db fee').fees,
         payments := db.payments ++ [db_payment] },
       .ok db_payment)

/-- Request body of POST /payments/paystack/initialize (schema
`PaystackPaymentInit`, amount is condecimal(gt=0)). -/
structure PaystackPaymentInit where
  student_fee_id : Nat
  amount : ℚ
  email : String

/-- The session data returned by the external Paystack collaborator. -/
structure PaystackSession where
  authorization_url : String
  access_code : String
  reference : String

/-- POST /payments/paystack/initialize (`initialize_paystack_payment`,
src/app/api/finance.py lines 640-735), after the authorization checks.
The external gateway call is modelled by the parameter `gw`; the handler
never mutates the database. Core amount checks are at lines 684-696:
reject non-positive amounts (400) and amounts exceeding the outstanding
balance `amount_due - amount_paid` (400). -/
def initialize_paystack_payment (gw : ℚ → String → PaystackSession)
    (db : FinanceDB) (payment_data : PaystackPaymentInit) :
    FinanceDB × Except ApiError PaystackSession :=
  if payment_data.amount ≤ 0 then
    (db, .error (.validationError "ensure this value is greater than 0"))
  else
    match findFee db payment_data.student_fee_id with
    | none => (db, .error (.notFound "Student fee not found"))
    | some fee =>
      let balance := fee.amount_due - fee.amount_paid
      if payment_data.amount ≤ 0 then
        (db, .error (.badRequest "Payment amount must be positive"))
      else if balance < payment_data.amount then
        (db, .error (.badRequest "Payment amount cannot exceed the balance due"))
      else
        (db, .ok (gw payment_data.amount payment_data.email))

/-- What the external gateway reports for a reference: success flag, amount
in minor units (kobo), and the echoed `student_fee_id` metadata. -/
structure GatewayVerification where
  status : Bool
  amount : ℚ
  metadata_student_fee_id : Option Nat

/-- Response body of POST /payments/paystack/verify. -/
structure VerificationResponse where
  is_successful : Bool
  amount : Option ℚ
  message : String
deriving DecidableEq

/-- POST /payments/paystack/verify (`verify_paystack_payment`,
src/app/api/finance.py lines 736-804). The gateway collaborator is the
parameter `gateway`. On gateway success the handler unconditionally
appends a Payment row carrying the reference (amount converted from kobo
by dividing by 100), increments `amount_paid` and recomputes the status.
There is no check for an already-existing Payment with this reference. -/
def verify_paystack_payment (gateway : String → GatewayVerification)
    (db : FinanceDB) (reference : String) : FinanceDB × VerificationResponse :=
  let vr := gateway reference
  if vr.status = false then
    (db, ⟨false, none, "Payment verification failed"⟩)
  else
    match vr.metadata_student_fee_id with
    | none => (db, ⟨false, none, "Payment metadata does not contain student_fee_id"⟩)
    | some student_fee_id =>
      match findFee db student_fee_id with
      | none => (db, ⟨false, none, "Student fee not found"⟩)
      | some fee =>
        let payment : Payment := ⟨student_fee_id, vr.amount / 100, "paystack", some reference⟩
        let new_paid := fee.amount_paid + payment.amount
        let new_status := if fee.amount_due ≤ new_paid then "paid" else "partial"
        let fee' := { fee with amount_paid := new_paid, status := new_status }
        ({ fees := (updateFeeById db fee').fees,
           payments := db.payments ++ [payment] },
         ⟨true, some payment.amount, "Payment verified successfully"⟩)

/-- The updated StudentFee row produced by a payment application. -/
def appliedFee (fee : StudentFee) (amount : ℚ) : StudentFee :=
  { fee with
    amount_paid := fee.amount_paid + amount
    status := (if fee.amount_due ≤ fee.amount_paid + amount then "paid" else "partial") }

/-! ## GPS distance (src/app/services/gps.py) -/

/-- Python `math.radians`: degrees to radians. -/
noncomputable def radians (x : ℝ) : ℝ := x * (Real.pi / 180)

/-- Function `calculate_distance` (src/app/services/gps.py lines 4-29): great-circle
distance in meters between two points given in decimal degrees, by the
haversine formula with Earth radius 6371000 m. Float arithmetic is
modelled over the reals. -/
noncomputable def calculate_distance (lat1 lon1 lat2 lon2 : ℝ) : ℝ :=
  let lat1r := radians lat1
  let lon1r := radians lon1
  let lat2r := radians lat2
  let lon2r := radians lon2
  let dlat := lat2r - lat1r
  let dlon := lon2r - lon1r
  let a := Real.sin (dlat / 2) ^ 2 +
    Real.cos lat1r * Real.cos lat2r * Real.sin (dlon / 2) ^ 2
  let c := 2 * Real.arcsin (Real.sqrt a)
  c * 6371000

/-- Function `verify_location` (src/app/services/gps.py lines 31-48): returns the
distance; the optional radius argument is ignored by the source. -/
noncomputable def verify_location (lat1 lon1 lat2 lon2 : ℝ)
    (radius : Option ℤ) : ℝ :=
  calculate_distance lat1 lon1 lat2 lon2

/-! ## Attendance data model (src/app/api/attendance.py) -/

/-- An AuthenticLocation row: a circular geofence zone of a school. -/
structure AuthenticLocation where
  name : String
  school_id : Nat
  latitude : ℝ
  longitude : ℝ
  radius_meters : ℤ
  active : Bool

/-- The query
`select(AuthenticLocation).where(school_id == sid and active == True)`
over the AuthenticLocation table. -/
def activeZones (dbLocs : List AuthenticLocation) (sid : Nat) :
    List AuthenticLocation :=
  dbLocs.filter (fun l => l.school_id == sid && l.active)

/-- Distance from the candidate point to the center of a zone. -/
noncomputable def zoneDist (lat lon : ℝ) (loc : AuthenticLocation) : ℝ :=
  calculate_distance lat lon loc.latitude loc.longitude

/-- A zone admits the candidate point when the distance to its center is at
most its radius. -/
def admitsZone (lat lon : ℝ) (loc : AuthenticLocation) : Prop :=
  zoneDist lat lon loc ≤ (loc.radius_meters : ℝ)

/-- Response of POST /attendance/verify-location (schema
`GPSVerificationResponse`); the human-readable message text is not
modelled. In the invalid branch the source response carries no
location_name key, modelled as `none`. -/
structure GPSVerificationResponse where
  is_valid : Bool
  distance : ℝ
  location_name : Option String

/-- One iteration of the zone loop of `verify_attendance_location`
(src/app/api/attendance.py lines 57-75). The loop state is the `is_valid`
flag together with the pair (closest_distance, closest_location); the
Python initial state (float inf, None) is modelled as `none`. -/
noncomputable def geoStep (lat lon : ℝ)
    (st : Bool × Option (ℝ × AuthenticLocation)) (location : AuthenticLocation) :
    Bool × Option (ℝ × AuthenticLocation) :=
  let distance := verify_location lat lon location.latitude location.longitude
    (some location.radius_meters)
  if distance ≤ (location.radius_meters : ℝ) then
    (true,
      match st.2 with
      | none => some (distance, location)
      | some (cd, cl) => if distance < cd then some (distance, location) else some (cd, cl))
  else st

/-- Python `min` over a nonempty list of distances; the empty case is never
reached because the handler 404s first on an empty zone list. -/
noncomputable def minDistList : List ℝ → ℝ
  | [] => 0
  | x :: xs => xs.foldl min x

/-- Invariant of the zone-scan loop of `verify_attendance_location` after
the prefix `P` of the zone list has been processed: the `is_valid` flag is
set exactly when some processed zone admits the point, and the tracked
closest pair, when present, is the first admitting zone attaining the
minimum distance among processed admitting zones (zones before it that
admit are strictly farther, zones after it that admit are no closer). -/
def ScanInv (lat lon : ℝ) (P : List AuthenticLocation)
    (st : Bool × Option (ℝ × AuthenticLocation)) : Prop :=
  (st.1 = true ↔ ∃ loc ∈ P, admitsZone lat lon loc) ∧
  (match st.2 with
   | none => ∀ loc ∈ P, ¬ admitsZone lat lon loc
   | some (cd, cl) =>
     st.1 = true ∧ admitsZone lat lon cl ∧ cd = zoneDist lat lon cl ∧
     ∃ P1 P2, P = P1 ++ cl :: P2 ∧
       (∀ loc ∈ P1, admitsZone lat lon loc →
         zoneDist lat lon cl < zoneDist lat lon loc) ∧
       (∀ loc ∈ P2, admitsZone lat lon loc →
         zoneDist lat lon cl ≤ zoneDist lat lon loc))

/-- POST /attendance/verify-location (`verify_attendance_location`,
src/app/api/attendance.py lines 24-94), after the school authorization
check. 404 when the school has no active zones; otherwise scan all active
zones, and answer valid with the closest admitting zone, or invalid with
the minimum distance to any zone and no zone name. -/
noncomputable def verify_attendance_location (dbLocs : List AuthenticLocation)
    (school_id : Nat) (lat lon : ℝ) :
    Except ApiError GPSVerificationResponse :=
  let locations := activeZones dbLocs school_id
  if locations.isEmpty then
    .error (.notFound "No authentic locations defined for this school")
  else
    let st := locations.foldl (geoStep lat lon) (false, none)
    if st.1 then
      match st.2 with
      | some (cd, cl) => .ok ⟨true, cd, some cl.name⟩
      | none => .ok ⟨true, 0, none⟩
    else
      .ok ⟨false,
        minDistList (locations.map
          (fun loc => verify_location lat lon loc.latitude loc.longitude none)),
        none⟩

/-- The `for location in locations: ... if distance <= radius: is_valid =
True; break` loop shared by `create_attendance_record` (lines 177-189) and
`create_bulk_attendance` (lines 281-293): scans zones in order and stops
at the first admitting one. -/
noncomputable def scan_is_valid (lat lon : ℝ) : List AuthenticLocation → Bool
  | [] => false
  | location :: rest =>
    let distance := verify_location lat lon location.latitude location.longitude
      (some location.radius_meters)
    if distance ≤ (location.radius_meters : ℝ) then true
    else scan_is_valid lat lon rest

/-- The exact flag message written by both attendance handlers. -/
def outsideZonesMsg : String :=
  "Location is outside of all authentic zones for this school"

/-- The geofence flagging block shared verbatim by `create_attendance_record`
(src/app/api/attendance.py lines 160-193) and `create_bulk_attendance`
(lines 264-297): when both coordinates are supplied and the school has a
nonempty set of active zones and no zone admits the point, the record is
flagged with `outsideZonesMsg`; in every other case it is not flagged. -/
noncomputable def geofence_flag (lat lon : Option ℝ) (school_id : Nat)
    (dbLocs : List AuthenticLocation) : Bool × Option String :=
  match lat, lon with
  | some la, some lo =>
    let locations := activeZones dbLocs school_id
    if locations.isEmpty then (false, none)
    else if scan_is_valid la lo locations then (false, none)
    else (true, some outsideZonesMsg)
  | _, _ => (false, none)

/-- An AttendanceRecord row; the calendar date is an opaque key. -/
structure AttendanceRecord where
  student_id : Nat
  class_id : Nat
  date : String
  status : String
  marked_by_user_id : Nat
  latitude : Option ℝ
  longitude : Option ℝ
  flagged : Bool
  flagged_reason : Option String

/-- Request body of POST /attendance (schema `AttendanceRecordCreate`). -/
structure AttendanceRecordCreate where
  student_id : Nat
  class_id : Nat
  date : String
  status : String
  marked_by_user_id : Nat
  latitude : Option ℝ
  longitude : Option ℝ

/-- The (student_id, date) key test used by the duplicate-record queries. -/
def matchesKey (sid : Nat) (d : String) (r : AttendanceRecord) : Bool :=
  r.student_id == sid && r.date == d

/-- POST /attendance (`create_attendance_record`, src/app/api/attendance.py
lines 96-212), after the role, student, class and school validations;
`student_school_id` is the school of the fetched student. Lines 144-158:
if a record already exists for (student_id, date) the handler raises 400
and commits nothing. Otherwise lines 160-212: compute the geofence flag
and append the new record. -/
noncomputable def create_attendance_record (db : List AttendanceRecord)
    (dbLocs : List AuthenticLocation) (student_school_id : Nat)
    (attendance_data : AttendanceRecordCreate) :
    List AttendanceRecord × Except ApiError AttendanceRecord :=
  if db.any (matchesKey attendance_data.student_id attendance_data.date) then
    (db, .error (.badRequest "Attendance record already exists for this student on this date"))
  else
    let fl := geofence_flag attendance_data.latitude attendance_data.longitude
      student_school_id dbLocs
    let attendance_record : AttendanceRecord :=
      { student_id := attendance_data.student_id
        class_id := attendance_data.class_id
        date := attendance_data.date
        status := attendance_data.status
        marked_by_user_id := attendance_data.marked_by_user_id
        latitude := attendance_data.latitude
        longitude := attendance_data.longitude
        flagged := fl.1
        flagged_reason := fl.2 }
    (db ++ [attendance_record], .ok attendance_record)

/-- One (student_id, status) item of a bulk submission. -/
structure BulkRecordItem where
  student_id : Nat
  status : String

/-- Request body of POST /attendance/bulk (schema `BulkAttendanceCreate`):
one shared context plus per-student items. -/
structure BulkAttendanceCreate where
  class_id : Nat
  date : String
  marked_by_user_id : Nat
  latitude : Option ℝ
  longitude : Option ℝ
  records : List BulkRecordItem

/-- The ORM update of a fetched AttendanceRecord row: the first row
matching the predicate is replaced in place. -/
def replaceFirst (p : AttendanceRecord → Bool) (new : AttendanceRecord) :
    List AttendanceRecord → List AttendanceRecord
  | [] => []
  | r :: rs => if p r then new :: rs else r :: replaceFirst p new rs

/-- The per-student loop of `create_bulk_attendance`
(src/app/api/attendance.py lines 299-338): for each item, if a record for
(student_id, bulk date) exists it is updated in place (status, marker,
coordinates and the shared flag pair; class_id is left as is), otherwise a
new record is appended. Returns the final table and the batch of
written/updated records in submission order. -/
def bulk_loop (bulk : BulkAttendanceCreate) (flagged : Bool)
    (flagged_reason : Option String) :
    List AttendanceRecord → List BulkRecordItem →
    List AttendanceRecord × List AttendanceRecord
  | db, [] => (db, [])
  | db, record_data :: rest =>
    match db.find? (matchesKey record_data.student_id bulk.date) with
    | some existing =>
      let updated := { existing with
        status := record_data.status
        marked_by_user_id := bulk.marked_by_user_id
        latitude := bulk.latitude
        longitude := bulk.longitude
        flagged := flagged
        flagged_reason := flagged_reason }
      let db' := replaceFirst (matchesKey record_data.student_id bulk.date) updated db
      let res := bulk_loop bulk flagged flagged_reason db' rest
      (res.1, updated :: res.2)
    | none =>
      let attendance_record : AttendanceRecord :=
        { student_id := record_data.student_id
          class_id := bulk.class_id
          date := bulk.date
          status := record_data.status
          marked_by_user_id := bulk.marked_by_user_id
          latitude := bulk.latitude
          longitude := bulk.longitude
          flagged := flagged
          flagged_reason := flagged_reason }
      let res := bulk_loop bulk flagged flagged_reason (db ++ [attendance_record]) rest
      (res.1, attendance_record :: res.2)

/-- The updated row the bulk loop writes over an existing record for the
same (student_id, date): status from the item, marker and coordinates from
the shared context, the shared flag pair; class_id is left as is. -/
def bulkUpdatedRecord (bulk : BulkAttendanceCreate) (fl : Bool) (rs : Option String)
    (x : BulkRecordItem) (existing : AttendanceRecord) : AttendanceRecord :=
  { existing with
    status := x.status
    marked_by_user_id := bulk.marked_by_user_id
    latitude := bulk.latitude
    longitude := bulk.longitude
    flagged := fl
    flagged_reason := rs }

/-- POST /attendance/bulk (`create_bulk_attendance`,
src/app/api/attendance.py lines 214-345), after the role, class and
student validations; `class_school_id` is the school of the fetched class.
The geofence flag is computed once, before the per-student loop, and the
same pair is passed to every iteration. -/
noncomputable def create_bulk_attendance (db : List AttendanceRecord)
    (dbLocs : List AuthenticLocation) (class_school_id : Nat)
    (bulk : BulkAttendanceCreate) :
    List AttendanceRecord × List AttendanceRecord :=
  let fl := geofence_flag bulk.latitude bulk.longitude class_school_id dbLocs
  bulk_loop bulk fl.1 fl.2 db bulk.records

/-- Instrumented variant of `create_bulk_attendance` that also counts how
many times the geofence block (the zone query plus distance scan at
src/app/api/attendance.py lines 264-297) runs: it runs once before the
loop when both coordinates are supplied, and zero times otherwise; the
loop body performs no geofence evaluation. -/
noncomputable def create_bulk_attendance_counting (db : List AttendanceRecord)
    (dbLocs : List AuthenticLocation) (class_school_id : Nat)
    (bulk : BulkAttendanceCreate) :
    Nat × (List AttendanceRecord × List AttendanceRecord) :=
  match bulk.latitude, bulk.longitude with
  | some la, some lo =>
    let fl := geofence_flag (some la) (some lo) class_school_id dbLocs
    (1, bulk_loop bulk fl.1 fl.2 db bulk.records)
  | _, _ =>
    (0, bulk_loop bulk false none db bulk.records)

/-! ## Helper lemmas -/

lemma calculate_distance_self (lat lon : ℝ) :
    calculate_distance lat lon lat lon = 0 := by
  simp [calculate_distance]

lemma calculate_distance_comm (lat1 lon1 lat2 lon2 : ℝ) :
    calculate_distance lat1 lon1 lat2 lon2 = calculate_distance lat2 lon2 lat1 lon1 := by
  unfold calculate_distance
  have hlat : Real.sin ((radians lat1 - radians lat2) / 2) ^ 2 =
      Real.sin ((radians lat2 - radians lat1) / 2) ^ 2 := by
    rw [show (radians lat1 - radians lat2) / 2 = -((radians lat2 - radians lat1) / 2) by ring,
      Real.sin_neg, neg_sq]
  have hlon : Real.sin ((radians lon1 - radians lon2) / 2) ^ 2 =
      Real.sin ((radians lon2 - radians lon1) / 2) ^ 2 := by
    rw [show (radians lon1 - radians lon2) / 2 = -((radians lon2 - radians lon1) / 2) by ring,
      Real.sin_neg, neg_sq]
  simp only []
  rw [hlat, hlon, mul_comm (Real.cos (radians lat2)) (Real.cos (radians lat1))]

lemma calculate_distance_nonneg (lat1 lon1 lat2 lon2 : ℝ) :
    0 ≤ calculate_distance lat1 lon1 lat2 lon2 := by
  unfold calculate_distance
  have h : 0 ≤ Real.arcsin (Real.sqrt (Real.sin ((radians lat2 - radians lat1) / 2) ^ 2 +
      Real.cos (radians lat1) * Real.cos (radians lat2) *
        Real.sin ((radians lon2 - radians lon1) / 2) ^ 2)) :=
    Real.arcsin_nonneg.mpr (Real.sqrt_nonneg _)
  positivity


lemma find?_map_update (fid : Nat) (fee' : StudentFee) (l : List StudentFee)
    (fee : StudentFee) (h : l.find? (fun f => f.id == fid) = some fee)
    (hid : fee'.id = fee.id) :
    (l.map (fun f => if f.id == fee'.id then fee' else f)).find?
      (fun f => f.id == fid) = some fee' := by
  induction l with
  | nil => simp at h
  | cons f fs ih =>
    by_cases hf : (f.id == fid) = true
    · rw [@List.find?_cons_of_pos _ (fun f => f.id == fid) f fs hf] at h
      have hfe : f = fee := Option.some.inj h
      have hfid : (fee'.id == fid) = true := by
        rw [hid, ← hfe]; exact hf
      have hmap : (if (f.id == fee'.id) = true then fee' else f) = fee' := by
        rw [if_pos]
        rw [hid, ← hfe]
        exact beq_self_eq_true f.id
      rw [List.map_cons, hmap]
      exact @List.find?_cons_of_pos _ (fun f => f.id == fid) fee' _ hfid
    · rw [@List.find?_cons_of_neg _ (fun f => f.id == fid) f fs hf] at h
      have hfee_id : (fee.id == fid) = true :=
        @List.find?_some _ (fun f => f.id == fid) fee fs h
      have h1 : fee.id = fid := eq_of_beq hfee_id
      have h2 : ¬ f.id = fid := fun hc => hf (by simp [hc])
      have hne : ¬ (f.id == fee'.id) = true := by
        rw [hid, h1]
        simp [h2]
      rw [List.map_cons, if_neg hne]
      rw [@List.find?_cons_of_neg _ (fun f => f.id == fid) f _ hf]
      exact ih h

lemma findFee_create_payment (db : FinanceDB) (payment_data : PaymentCreate)
    (fee : StudentFee) (hfee : findFee db payment_data.student_fee_id = some fee)
    (hpos : 0 < payment_data.amount) :
    findFee (create_payment db payment_data).1 payment_data.student_fee_id =
      some (appliedFee fee payment_data.amount) := by
  unfold create_payment
  rw [if_neg (not_le.mpr hpos), hfee]
  exact find?_map_update payment_data.student_fee_id
    (appliedFee fee payment_data.amount) db.fees fee hfee rfl

lemma create_payment_eq (db : FinanceDB) (payment_data : PaymentCreate)
    (fee : StudentFee) (hfee : findFee db payment_data.student_fee_id = some fee)
    (hpos : 0 < payment_data.amount) :
    create_payment db payment_data =
      ({ fees := (updateFeeById db (appliedFee fee payment_data.amount)).fees,
         payments := db.payments ++ [⟨payment_data.student_fee_id, payment_data.amount,
           payment_data.payment_method, payment_data.payment_reference⟩] },
       .ok ⟨payment_data.student_fee_id, payment_data.amount,
         payment_data.payment_method, payment_data.payment_reference⟩) := by
  unfold create_payment
  rw [if_neg (not_le.mpr hpos), hfee]
  rfl

lemma scan_is_valid_cons (lat lon : ℝ) (location : AuthenticLocation)
    (rest : List AuthenticLocation) :
    scan_is_valid lat lon (location :: rest) =
      if zoneDist lat lon location ≤ (location.radius_meters : ℝ) then true
      else scan_is_valid lat lon rest := rfl

lemma scan_is_valid_false_iff (lat lon : ℝ) (L : List AuthenticLocation) :
    scan_is_valid lat lon L = false ↔ ∀ loc ∈ L, ¬ admitsZone lat lon loc := by
  induction L with
  | nil => simp [scan_is_valid]
  | cons location rest ih =>
    rw [scan_is_valid_cons]
    by_cases hadm : zoneDist lat lon location ≤ (location.radius_meters : ℝ)
    · rw [if_pos hadm]
      simp only [Bool.true_eq_false, false_iff]
      intro hall
      exact hall location (List.mem_cons_self _ _) hadm
    · rw [if_neg hadm]
      rw [ih]
      constructor
      · intro hall loc hmem
        rcases List.mem_cons.mp hmem with hl | hl
        · rw [hl]; exact hadm
        · exact hall loc hl
      · intro hall loc hmem
        exact hall loc (List.mem_cons_of_mem _ hmem)

lemma geofence_flag_some (la lo : ℝ) (sid : Nat) (dbLocs : List AuthenticLocation) :
    geofence_flag (some la) (some lo) sid dbLocs =
      (if (activeZones dbLocs sid).isEmpty then ((false : Bool), (none : Option String))
       else if scan_is_valid la lo (activeZones dbLocs sid) then (false, none)
       else (true, some outsideZonesMsg)) := rfl

lemma geofence_flag_true_iff (lat lon : Option ℝ) (sid : Nat)
    (dbLocs : List AuthenticLocation) :
    (geofence_flag lat lon sid dbLocs).1 = true ↔
      ∃ la, lat = some la ∧ ∃ lo, lon = some lo ∧
        activeZones dbLocs sid ≠ [] ∧
        ∀ loc ∈ activeZones dbLocs sid, ¬ admitsZone la lo loc := by
  match lat, lon with
  | none, _ =>
    simp [geofence_flag]
  | some la, none =>
    simp [geofence_flag]
  | some la, some lo =>
    rw [geofence_flag_some]
    by_cases hemp : (activeZones dbLocs sid).isEmpty = true
    · rw [if_pos hemp]
      simp only [Bool.false_eq_true, false_iff]
      rintro ⟨la', hla, lo', hlo, hne, _⟩
      exact hne (List.isEmpty_iff.mp hemp)
    · rw [if_neg hemp]
      by_cases hvalid : scan_is_valid la lo (activeZones dbLocs sid) = true
      · rw [if_pos hvalid]
        simp only [Bool.false_eq_true, false_iff]
        rintro ⟨la', hla, lo', hlo, _, hall⟩
        cases hla; cases hlo
        rw [(scan_is_valid_false_iff la lo (activeZones dbLocs sid)).mpr hall] at hvalid
        exact Bool.false_ne_true hvalid
      · rw [if_neg hvalid]
        simp only [true_iff]
        refine ⟨la, rfl, lo, rfl, fun hn => hemp (by simp [hn]), ?_⟩
        exact (scan_is_valid_false_iff la lo _).mp (Bool.eq_false_iff.mpr hvalid)

lemma geofence_flag_reason (lat lon : Option ℝ) (sid : Nat)
    (dbLocs : List AuthenticLocation) :
    (geofence_flag lat lon sid dbLocs).2 =
      (if (geofence_flag lat lon sid dbLocs).1 = true
        then some outsideZonesMsg else none) := by
  match lat, lon with
  | none, _ => simp [geofence_flag]
  | some la, none => simp [geofence_flag]
  | some la, some lo =>
    rw [geofence_flag_some]
    by_cases hemp : (activeZones dbLocs sid).isEmpty = true
    · rw [if_pos hemp]; rfl
    · rw [if_neg hemp]
      by_cases hvalid : scan_is_valid la lo (activeZones dbLocs sid) = true
      · rw [if_pos hvalid]; rfl
      · rw [if_neg hvalid]; rfl

lemma bulk_loop_nil (bulk : BulkAttendanceCreate) (fl : Bool) (rs : Option String)
    (db : List AttendanceRecord) : bulk_loop bulk fl rs db [] = (db, []) := rfl

lemma bulk_loop_cons_none (bulk : BulkAttendanceCreate) (fl : Bool) (rs : Option String)
    (db : List AttendanceRecord) (x : BulkRecordItem) (rest : List BulkRecordItem)
    (h : db.find? (matchesKey x.student_id bulk.date) = none) :
    bulk_loop bulk fl rs db (x :: rest) =
      ((bulk_loop bulk fl rs (db ++ [⟨x.student_id, bulk.class_id, bulk.date, x.status,
          bulk.marked_by_user_id, bulk.latitude, bulk.longitude, fl, rs⟩]) rest).1,
       (⟨x.student_id, bulk.class_id, bulk.date, x.status, bulk.marked_by_user_id,
          bulk.latitude, bulk.longitude, fl, rs⟩ : AttendanceRecord) ::
       (bulk_loop bulk fl rs (db ++ [⟨x.student_id, bulk.class_id, bulk.date, x.status,
          bulk.marked_by_user_id, bulk.latitude, bulk.longitude, fl, rs⟩]) rest).2) := by
  conv_lhs => rw [bulk_loop]
  rw [h]

lemma bulk_loop_cons_some (bulk : BulkAttendanceCreate) (fl : Bool) (rs : Option String)
    (db : List AttendanceRecord) (x : BulkRecordItem) (rest : List BulkRecordItem)
    (existing : AttendanceRecord)
    (h : db.find? (matchesKey x.student_id bulk.date) = some existing) :
    bulk_loop bulk fl rs db (x :: rest) =
      ((bulk_loop bulk fl rs (replaceFirst (matchesKey x.student_id bulk.date)
          (bulkUpdatedRecord bulk fl rs x existing) db) rest).1,
       bulkUpdatedRecord bulk fl rs x existing ::
       (bulk_loop bulk fl rs (replaceFirst (matchesKey x.student_id bulk.date)
          (bulkUpdatedRecord bulk fl rs x existing) db) rest).2) := by
  conv_lhs => rw [bulk_loop]
  rw [h]
  rfl

lemma bulk_loop_batch_flags (bulk : BulkAttendanceCreate) (fl : Bool) (rs : Option String) :
    ∀ (items : List BulkRecordItem) (db : List AttendanceRecord) (r : AttendanceRecord),
      r ∈ (bulk_loop bulk fl rs db items).2 → r.flagged = fl ∧ r.flagged_reason = rs := by
  intro items
  induction items with
  | nil =>
    intro db r hr
    rw [bulk_loop_nil] at hr
    simp at hr
  | cons x rest ih =>
    intro db r hr
    cases hfind : db.find? (matchesKey x.student_id bulk.date) with
    | none =>
      rw [bulk_loop_cons_none bulk fl rs db x rest hfind] at hr
      rcases List.mem_cons.mp hr with h1 | h1
      · rw [h1]
        exact ⟨rfl, rfl⟩
      · exact ih _ r h1
    | some existing =>
      rw [bulk_loop_cons_some bulk fl rs db x rest existing hfind] at hr
      rcases List.mem_cons.mp hr with h1 | h1
      · rw [h1]
        exact ⟨rfl, rfl⟩
      · exact ih _ r h1

lemma find?_append_left_none {α : Type} (p : α → Bool) (l1 l2 : List α)
    (h : l1.find? p = none) : (l1 ++ l2).find? p = l2.find? p := by
  induction l1 with
  | nil => simp
  | cons a l ih =>
    have ha : ¬ p a = true := by
      intro hp
      rw [@List.find?_cons_of_pos _ p a l hp] at h
      exact Option.noConfusion h
    rw [List.cons_append, @List.find?_cons_of_neg _ p a (l ++ l2) ha]
    rw [@List.find?_cons_of_neg _ p a l ha] at h
    exact ih h

lemma replaceFirst_append_left_none (p : AttendanceRecord → Bool) (new : AttendanceRecord)
    (l1 l2 : List AttendanceRecord) (h : ∀ r ∈ l1, p r = false) :
    replaceFirst p new (l1 ++ l2) = l1 ++ replaceFirst p new l2 := by
  induction l1 with
  | nil => simp
  | cons a l ih =>
    have ha : p a = false := h a (List.mem_cons_self _ _)
    rw [List.cons_append]
    conv_lhs => rw [replaceFirst]
    rw [if_neg (by simp [ha])]
    rw [ih (fun r hr => h r (List.mem_cons_of_mem _ hr)), List.cons_append]

lemma replaceFirst_cons_pos (p : AttendanceRecord → Bool) (new r : AttendanceRecord)
    (rs : List AttendanceRecord) (h : p r = true) :
    replaceFirst p new (r :: rs) = new :: rs := by
  unfold replaceFirst
  rw [if_pos h]

/-! ## Claim theorems: finance -/

/-- C6: a manual payment whose amount is zero or negative is rejected by
the request-validation layer (condecimal gt=0 on `PaymentCreate.amount`)
with an invalid-amount error, and the database — in particular the
referenced StudentFee and the Payment table — is left unmodified. -/
theorem claim_C6_nonpositive_payment_rejected (db : FinanceDB)
    (payment_data : PaymentCreate) (h : payment_data.amount ≤ 0) :
    create_payment db payment_data =
      (db, .error (.validationError "ensure this value is greater than 0")) := by
  unfold create_payment
  rw [if_pos h]

theorem claim_C6_witness :
    (({ student_fee_id := 1, amount := 0, payment_method := "manual",
        payment_reference := none } : PaymentCreate).amount ≤ 0) ∧
    create_payment ⟨[⟨1, 7, 1000, 0, "pending"⟩], []⟩
      { student_fee_id := 1, amount := 0, payment_method := "manual",
        payment_reference := none } =
      (⟨[⟨1, 7, 1000, 0, "pending"⟩], []⟩,
       .error (.validationError "ensure this value is greater than 0")) :=
  ⟨by norm_num, claim_C6_nonpositive_payment_rejected _ _ (by norm_num)⟩

/-- C4: applying a manual payment with positive amount to an existing
StudentFee appends exactly one Payment row carrying the request data,
increments `amount_paid` by exactly the payment amount, and sets the
status to "paid" when the new `amount_paid` reaches `amount_due` and to
"partial" when it stays below (in particular when it is positive but
below). -/
theorem claim_C4_manual_payment_updates_fee (db : FinanceDB)
    (payment_data : PaymentCreate) (fee : StudentFee)
    (hfee : findFee db payment_data.student_fee_id = some fee)
    (hpos : 0 < payment_data.amount) :
    (create_payment db payment_data).2 =
      .ok ⟨payment_data.student_fee_id, payment_data.amount,
        payment_data.payment_method, payment_data.payment_reference⟩ ∧
    (create_payment db payment_data).1.payments =
      db.payments ++ [⟨payment_data.student_fee_id, payment_data.amount,
        payment_data.payment_method, payment_data.payment_reference⟩] ∧
    ∃ newFee : StudentFee,
      findFee (create_payment db payment_data).1 payment_data.student_fee_id =
        some newFee ∧
      newFee.amount_paid = fee.amount_paid + payment_data.amount ∧
      (fee.amount_due ≤ newFee.amount_paid → newFee.status = "paid") ∧
      (newFee.amount_paid < fee.amount_due → newFee.status = "partial") := by
  refine ⟨?_, ?_, appliedFee fee payment_data.amount,
    findFee_create_payment db payment_data fee hfee hpos, rfl, ?_, ?_⟩
  · rw [create_payment_eq db payment_data fee hfee hpos]
  · rw [create_payment_eq db payment_data fee hfee hpos]
  · intro hle
    show (if fee.amount_due ≤ fee.amount_paid + payment_data.amount
      then "paid" else "partial") = "paid"
    rw [if_pos (show fee.amount_due ≤ fee.amount_paid + payment_data.amount from hle)]
  · intro hlt
    show (if fee.amount_due ≤ fee.amount_paid + payment_data.amount
      then "paid" else "partial") = "partial"
    rw [if_neg (not_le.mpr
      (show fee.amount_paid + payment_data.amount < fee.amount_due from hlt))]

theorem claim_C4_witness :
    (findFee ⟨[⟨1, 7, 1000, 0, "pending"⟩], []⟩ 1 = some ⟨1, 7, 1000, 0, "pending"⟩) ∧
    (0 < (400 : ℚ)) ∧
    ((create_payment ⟨[⟨1, 7, 1000, 0, "pending"⟩], []⟩
        ⟨1, 400, "manual", none⟩).2 = .ok ⟨1, 400, "manual", none⟩ ∧
     (create_payment ⟨[⟨1, 7, 1000, 0, "pending"⟩], []⟩
        ⟨1, 400, "manual", none⟩).1.payments = [] ++ [⟨1, 400, "manual", none⟩] ∧
     ∃ newFee : StudentFee,
       findFee (create_payment ⟨[⟨1, 7, 1000, 0, "pending"⟩], []⟩
         ⟨1, 400, "manual", none⟩).1 1 = some newFee ∧
       newFee.amount_paid = 0 + 400 ∧
       ((1000 : ℚ) ≤ newFee.amount_paid → newFee.status = "paid") ∧
       (newFee.amount_paid < 1000 → newFee.status = "partial")) :=
  ⟨by decide, by norm_num,
    claim_C4_manual_payment_updates_fee ⟨[⟨1, 7, 1000, 0, "pending"⟩], []⟩
      ⟨1, 400, "manual", none⟩ ⟨1, 7, 1000, 0, "pending"⟩ (by decide) (by norm_num)⟩

/-- C7: gateway payment initialization against an existing StudentFee is
rejected with an invalid-amount error and no state change whenever the
requested amount is non-positive or exceeds the outstanding balance
`amount_due - amount_paid`; the handler never mutates the database, and a
successful initialization implies the amount is within the balance. -/
theorem claim_C7_initialize_rejects_overbalance (gw : ℚ → String → PaystackSession)
    (db : FinanceDB) (payment_data : PaystackPaymentInit) (fee : StudentFee)
    (hfee : findFee db payment_data.student_fee_id = some fee) :
    (payment_data.amount ≤ 0 →
      initialize_paystack_payment gw db payment_data =
        (db, .error (.validationError "ensure this value is greater than 0"))) ∧
    (0 < payment_data.amount →
      fee.amount_due - fee.amount_paid < payment_data.amount →
      initialize_paystack_payment gw db payment_data =
        (db, .error (.badRequest "Payment amount cannot exceed the balance due"))) ∧
    (initialize_paystack_payment gw db payment_data).1 = db ∧
    (∀ s, (initialize_paystack_payment gw db payment_data).2 = .ok s →
      payment_data.amount ≤ fee.amount_due - fee.amount_paid) := by
  simp only [initialize_paystack_payment, hfee]
  by_cases h0 : payment_data.amount ≤ 0
  · rw [if_pos h0]
    exact ⟨fun _ => rfl, fun hpos _ => absurd h0 (not_le.mpr hpos), rfl,
      fun s hs => Except.noConfusion hs⟩
  · rw [if_neg h0]
    by_cases hb : fee.amount_due - fee.amount_paid < payment_data.amount
    · rw [if_neg h0, if_pos hb]
      exact ⟨fun h => absurd h h0, fun _ _ => rfl, rfl,
        fun s hs => Except.noConfusion hs⟩
    · rw [if_neg h0, if_neg hb]
      exact ⟨fun h => absurd h h0, fun _ hlt => absurd hlt hb, rfl,
        fun s _ => not_lt.mp hb⟩

theorem claim_C7_witness :
    (findFee ⟨[⟨1, 7, 1000, 0, "pending"⟩], []⟩ 1 = some ⟨1, 7, 1000, 0, "pending"⟩) ∧
    ((0 : ℚ) < 1500 ∧ (1000 : ℚ) - 0 < 1500) ∧
    initialize_paystack_payment (fun _ _ => ⟨"u", "a", "r"⟩)
      ⟨[⟨1, 7, 1000, 0, "pending"⟩], []⟩ ⟨1, 1500, "p@x.com"⟩ =
      (⟨[⟨1, 7, 1000, 0, "pending"⟩], []⟩,
       .error (.badRequest "Payment amount cannot exceed the balance due")) :=
  ⟨by decide, ⟨by norm_num, by norm_num⟩,
    (claim_C7_initialize_rejects_overbalance (fun _ _ => ⟨"u", "a", "r"⟩)
      ⟨[⟨1, 7, 1000, 0, "pending"⟩], []⟩ ⟨1, 1500, "p@x.com"⟩
      ⟨1, 7, 1000, 0, "pending"⟩ (by decide)).2.1 (by norm_num) (by norm_num)⟩

/-- C10: the manual payment path enforces no upper bound on the amount:
for an existing StudentFee and any positive amount strictly greater than
the outstanding balance, the manual payment is accepted, `amount_paid` is
incremented past `amount_due`, and the status becomes "paid"; the same
over-balance request through gateway initialization is rejected. -/
theorem claim_C10_manual_payment_has_no_upper_bound (db : FinanceDB)
    (payment_data : PaymentCreate) (init_data : PaystackPaymentInit)
    (gw : ℚ → String → PaystackSession) (fee : StudentFee)
    (hfee : findFee db payment_data.student_fee_id = some fee)
    (hpos : 0 < payment_data.amount)
    (hover : fee.amount_due - fee.amount_paid < payment_data.amount)
    (hsame_id : init_data.student_fee_id = payment_data.student_fee_id)
    (hsame_amt : init_data.amount = payment_data.amount) :
    (create_payment db payment_data).2 =
      .ok ⟨payment_data.student_fee_id, payment_data.amount,
        payment_data.payment_method, payment_data.payment_reference⟩ ∧
    findFee (create_payment db payment_data).1 payment_data.student_fee_id =
      some (appliedFee fee payment_data.amount) ∧
    fee.amount_due < (appliedFee fee payment_data.amount).amount_paid ∧
    (appliedFee fee payment_data.amount).status = "paid" ∧
    initialize_paystack_payment gw db init_data =
      (db, .error (.badRequest "Payment amount cannot exceed the balance due")) := by
  have hlt : fee.amount_due < fee.amount_paid + payment_data.amount := by linarith
  refine ⟨?_, findFee_create_payment db payment_data fee hfee hpos, hlt, ?_, ?_⟩
  · rw [create_payment_eq db payment_data fee hfee hpos]
  · show (if fee.amount_due ≤ fee.amount_paid + payment_data.amount
      then "paid" else "partial") = "paid"
    rw [if_pos (le_of_lt hlt)]
  · have hfee' : findFee db init_data.student_fee_id = some fee := by
      rw [hsame_id]; exact hfee
    simp only [initialize_paystack_payment, hfee', hsame_amt]
    rw [if_neg (not_le.mpr hpos), if_neg (not_le.mpr hpos), if_pos hover]

theorem claim_C10_witness :
    (findFee ⟨[⟨1, 7, 1000, 0, "pending"⟩], []⟩ 1 = some ⟨1, 7, 1000, 0, "pending"⟩) ∧
    ((0 : ℚ) < 1500 ∧ (1000 : ℚ) - 0 < 1500) ∧
    ((create_payment ⟨[⟨1, 7, 1000, 0, "pending"⟩], []⟩ ⟨1, 1500, "manual", none⟩).2 =
      .ok ⟨1, 1500, "manual", none⟩ ∧
     findFee (create_payment ⟨[⟨1, 7, 1000, 0, "pending"⟩], []⟩
       ⟨1, 1500, "manual", none⟩).1 1 = some (appliedFee ⟨1, 7, 1000, 0, "pending"⟩ 1500) ∧
     (1000 : ℚ) < (appliedFee ⟨1, 7, 1000, 0, "pending"⟩ 1500).amount_paid ∧
     (appliedFee ⟨1, 7, 1000, 0, "pending"⟩ 1500).status = "paid" ∧
     initialize_paystack_payment (fun _ _ => ⟨"u", "a", "r"⟩)
       ⟨[⟨1, 7, 1000, 0, "pending"⟩], []⟩ ⟨1, 1500, "p@x.com"⟩ =
       (⟨[⟨1, 7, 1000, 0, "pending"⟩], []⟩,
        .error (.badRequest "Payment amount cannot exceed the balance due"))) :=
  ⟨by decide, ⟨by norm_num, by norm_num⟩,
    claim_C10_manual_payment_has_no_upper_bound ⟨[⟨1, 7, 1000, 0, "pending"⟩], []⟩
      ⟨1, 1500, "manual", none⟩ ⟨1, 1500, "p@x.com"⟩ (fun _ _ => ⟨"u", "a", "r"⟩)
      ⟨1, 7, 1000, 0, "pending"⟩ (by decide) (by norm_num) (by norm_num) rfl rfl⟩

/-- C1: the code at the failing input. The gateway confirms success for
reference "ref-123" (amount 40000 kobo = 400 major units, metadata fee 1)
on both calls; the claimed behavior is that the second call short-circuits
leaving exactly one Payment row and one credit, but `verify_paystack_payment`
has no existing-reference check: after two calls there are two Payment
rows with reference "ref-123" and `amount_paid` is credited twice (800
instead of 400) — the double-credit the specification forbids. -/
theorem claim_C1_reconciliation_double_credits_on_repeat :
    (verify_paystack_payment (fun _ => ⟨true, 40000, some 1⟩)
      ⟨[⟨1, 7, 1000, 0, "pending"⟩], []⟩ "ref-123").2.is_successful = true ∧
    (verify_paystack_payment (fun _ => ⟨true, 40000, some 1⟩)
      (verify_paystack_payment (fun _ => ⟨true, 40000, some 1⟩)
        ⟨[⟨1, 7, 1000, 0, "pending"⟩], []⟩ "ref-123").1 "ref-123").2.is_successful = true ∧
    ((verify_paystack_payment (fun _ => ⟨true, 40000, some 1⟩)
      (verify_paystack_payment (fun _ => ⟨true, 40000, some 1⟩)
        ⟨[⟨1, 7, 1000, 0, "pending"⟩], []⟩ "ref-123").1 "ref-123").1.payments.filter
      (fun p => p.payment_reference == some "ref-123")).length = 2 ∧
    findFee (verify_paystack_payment (fun _ => ⟨true, 40000, some 1⟩)
      (verify_paystack_payment (fun _ => ⟨true, 40000, some 1⟩)
        ⟨[⟨1, 7, 1000, 0, "pending"⟩], []⟩ "ref-123").1 "ref-123").1 1 =
      some ⟨1, 7, 1000, 800, "partial"⟩ := by
  norm_num [verify_paystack_payment, findFee, updateFeeById, List.find?, List.filter]

/-- C9: the haversine distance of the source satisfies
`distance(p, p) = 0`, symmetry `distance(a, b) = distance(b, a)`, and
non-negativity of every result, over the real-number model of the float
arithmetic. -/
theorem claim_C9_distance_identity_symmetry_nonneg (lat1 lon1 lat2 lon2 : ℝ) :
    calculate_distance lat1 lon1 lat1 lon1 = 0 ∧
    calculate_distance lat1 lon1 lat2 lon2 = calculate_distance lat2 lon2 lat1 lon1 ∧
    0 ≤ calculate_distance lat1 lon1 lat2 lon2 :=
  ⟨calculate_distance_self lat1 lon1,
   calculate_distance_comm lat1 lon1 lat2 lon2,
   calculate_distance_nonneg lat1 lon1 lat2 lon2⟩

/-- C3: an attendance submission that passes the duplicate-record check is
always persisted (appended, never rejected by geofencing); the record is
flagged with reason `outsideZonesMsg` exactly when both coordinates are
supplied, the active-zone set of the school is nonempty, and no active zone
admits the point; with an empty active-zone set or missing coordinates the
record is stored unflagged with a null reason. -/
theorem claim_C3_geofence_never_blocks (db : List AttendanceRecord)
    (dbLocs : List AuthenticLocation) (student_school_id : Nat)
    (attendance_data : AttendanceRecordCreate)
    (hnodup : db.any (matchesKey attendance_data.student_id attendance_data.date) = false) :
    ∃ rec : AttendanceRecord,
      create_attendance_record db dbLocs student_school_id attendance_data =
        (db ++ [rec], .ok rec) ∧
      rec.status = attendance_data.status ∧
      (rec.flagged = true ↔
        ∃ la, attendance_data.latitude = some la ∧
        ∃ lo, attendance_data.longitude = some lo ∧
          activeZones dbLocs student_school_id ≠ [] ∧
          ∀ loc ∈ activeZones dbLocs student_school_id, ¬ admitsZone la lo loc) ∧
      rec.flagged_reason = (if rec.flagged then some outsideZonesMsg else none) := by
  refine ⟨⟨attendance_data.student_id, attendance_data.class_id, attendance_data.date,
    attendance_data.status, attendance_data.marked_by_user_id, attendance_data.latitude,
    attendance_data.longitude,
    (geofence_flag attendance_data.latitude attendance_data.longitude
      student_school_id dbLocs).1,
    (geofence_flag attendance_data.latitude attendance_data.longitude
      student_school_id dbLocs).2⟩, ?_, rfl, ?_, ?_⟩
  · unfold create_attendance_record
    rw [if_neg (by simp [hnodup])]
  · exact geofence_flag_true_iff attendance_data.latitude attendance_data.longitude
      student_school_id dbLocs
  · exact geofence_flag_reason attendance_data.latitude attendance_data.longitude
      student_school_id dbLocs

theorem claim_C3_witness :
    (List.any ([] : List AttendanceRecord) (matchesKey 7 "2024-01-10") = false) ∧
    ∃ rec : AttendanceRecord,
      create_attendance_record [] [] 1 ⟨7, 1, "2024-01-10", "Present", 9, none, none⟩ =
        ([] ++ [rec], .ok rec) ∧
      rec.status = "Present" ∧
      (rec.flagged = true ↔
        ∃ la, (none : Option ℝ) = some la ∧
        ∃ lo, (none : Option ℝ) = some lo ∧
          activeZones [] 1 ≠ [] ∧
          ∀ loc ∈ activeZones [] 1, ¬ admitsZone la lo loc) ∧
      rec.flagged_reason = (if rec.flagged then some outsideZonesMsg else none) :=
  ⟨rfl, claim_C3_geofence_never_blocks [] [] 1
    ⟨7, 1, "2024-01-10", "Present", 9, none, none⟩ rfl⟩

/-- C8: in the bulk attendance operation with coordinates supplied, the
geofence block runs exactly once for the whole batch (the instrumented
count is 1 and does not depend on the per-student record list), the
instrumented run produces the same result as the handler, and every record
written or updated in the batch carries the one shared flagged /
flagged_reason pair. -/
theorem claim_C8_bulk_geofence_evaluated_once (db : List AttendanceRecord)
    (dbLocs : List AuthenticLocation) (class_school_id : Nat)
    (bulk : BulkAttendanceCreate) (la lo : ℝ)
    (hla : bulk.latitude = some la) (hlo : bulk.longitude = some lo) :
    (create_bulk_attendance_counting db dbLocs class_school_id bulk).1 = 1 ∧
    (∀ records' : List BulkRecordItem,
      (create_bulk_attendance_counting db dbLocs class_school_id
        { bulk with records := records' }).1 = 1) ∧
    (create_bulk_attendance_counting db dbLocs class_school_id bulk).2 =
      create_bulk_attendance db dbLocs class_school_id bulk ∧
    ∀ r ∈ (create_bulk_attendance db dbLocs class_school_id bulk).2,
      r.flagged = (geofence_flag bulk.latitude bulk.longitude class_school_id dbLocs).1 ∧
      r.flagged_reason =
        (geofence_flag bulk.latitude bulk.longitude class_school_id dbLocs).2 := by
  refine ⟨?_, ?_, ?_, ?_⟩
  · unfold create_bulk_attendance_counting
    rw [hla, hlo]
  · intro records'
    unfold create_bulk_attendance_counting
    rw [show ({ bulk with records := records' } : BulkAttendanceCreate).latitude = some la
      from hla]
    rw [show ({ bulk with records := records' } : BulkAttendanceCreate).longitude = some lo
      from hlo]
  · unfold create_bulk_attendance_counting create_bulk_attendance
    rw [hla, hlo]
  · intro r hr
    exact bulk_loop_batch_flags bulk
      (geofence_flag bulk.latitude bulk.longitude class_school_id dbLocs).1
      (geofence_flag bulk.latitude bulk.longitude class_school_id dbLocs).2
      bulk.records db r hr

theorem claim_C8_witness :
    (({ class_id := 1, date := "2024-01-10", marked_by_user_id := 9,
        latitude := some 0, longitude := some 0,
        records := [⟨7, "Present"⟩, ⟨8, "Late"⟩] } : BulkAttendanceCreate).latitude =
      some 0) ∧
    (({ class_id := 1, date := "2024-01-10", marked_by_user_id := 9,
        latitude := some 0, longitude := some 0,
        records := [⟨7, "Present"⟩, ⟨8, "Late"⟩] } : BulkAttendanceCreate).longitude =
      some 0) ∧
    ((create_bulk_attendance_counting [] [] 1
        { class_id := 1, date := "2024-01-10", marked_by_user_id := 9,
          latitude := some 0, longitude := some 0,
          records := [⟨7, "Present"⟩, ⟨8, "Late"⟩] }).1 = 1 ∧
     (∀ records' : List BulkRecordItem,
       (create_bulk_attendance_counting [] [] 1
         { class_id := 1, date := "2024-01-10", marked_by_user_id := 9,
           latitude := some 0, longitude := some 0, records := records' }).1 = 1) ∧
     (create_bulk_attendance_counting [] [] 1
        { class_id := 1, date := "2024-01-10", marked_by_user_id := 9,
          latitude := some 0, longitude := some 0,
          records := [⟨7, "Present"⟩, ⟨8, "Late"⟩] }).2 =
       create_bulk_attendance [] [] 1
         { class_id := 1, date := "2024-01-10", marked_by_user_id := 9,
           latitude := some 0, longitude := some 0,
           records := [⟨7, "Present"⟩, ⟨8, "Late"⟩] } ∧
     ∀ r ∈ (create_bulk_attendance [] [] 1
         { class_id := 1, date := "2024-01-10", marked_by_user_id := 9,
           latitude := some 0, longitude := some 0,
           records := [⟨7, "Present"⟩, ⟨8, "Late"⟩] }).2,
       r.flagged = (geofence_flag (some 0) (some 0) 1 []).1 ∧
       r.flagged_reason = (geofence_flag (some 0) (some 0) 1 []).2) :=
  ⟨rfl, rfl, claim_C8_bulk_geofence_evaluated_once [] [] 1
    { class_id := 1, date := "2024-01-10", marked_by_user_id := 9,
      latitude := some 0, longitude := some 0,
      records := [⟨7, "Present"⟩, ⟨8, "Late"⟩] } 0 0 rfl rfl⟩

/-- C2 (amended): re-submission for an existing (student, date) key never
creates a duplicate row, but only the bulk endpoint overwrites
(last-write-wins): two bulk submissions "Present" then "Late" for a fresh
key leave exactly one stored record for the key and its status is "Late";
the single-record endpoint instead rejects a re-submission for an existing
key with a 400 error and leaves the stored records unchanged. -/
theorem claim_C2_resubmission_bulk_overwrites_single_rejects :
    (∀ (db : List AttendanceRecord) (dbLocs dbLocs2 : List AuthenticLocation)
       (csid csid2 cid cid2 mby mby2 sid : Nat) (d st1 st2 : String)
       (lat1 lon1 lat2 lon2 : Option ℝ),
      (∀ r ∈ db, matchesKey sid d r = false) →
      ((create_bulk_attendance
          (create_bulk_attendance db dbLocs csid ⟨cid, d, mby, lat1, lon1, [⟨sid, st1⟩]⟩).1
          dbLocs2 csid2 ⟨cid2, d, mby2, lat2, lon2, [⟨sid, st2⟩]⟩).1.filter
        (matchesKey sid d)).length = 1 ∧
      (∀ r ∈ (create_bulk_attendance
          (create_bulk_attendance db dbLocs csid ⟨cid, d, mby, lat1, lon1, [⟨sid, st1⟩]⟩).1
          dbLocs2 csid2 ⟨cid2, d, mby2, lat2, lon2, [⟨sid, st2⟩]⟩).1,
        matchesKey sid d r = true → r.status = st2)) ∧
    (∀ (db' : List AttendanceRecord) (dbLocs' : List AuthenticLocation) (ssid' : Nat)
       (data : AttendanceRecordCreate),
      (∃ r ∈ db', matchesKey data.student_id data.date r = true) →
      create_attendance_record db' dbLocs' ssid' data =
        (db', .error (.badRequest
          "Attendance record already exists for this student on this date"))) := by
  constructor
  · intro db dbLocs dbLocs2 csid csid2 cid cid2 mby mby2 sid d st1 st2 lat1 lon1 lat2 lon2 h
    have hfind1 : db.find? (matchesKey sid d) = none :=
      List.find?_eq_none.mpr (fun r hr => by simp [h r hr])
    have e1 : create_bulk_attendance db dbLocs csid ⟨cid, d, mby, lat1, lon1, [⟨sid, st1⟩]⟩ =
        (db ++ [⟨sid, cid, d, st1, mby, lat1, lon1,
          (geofence_flag lat1 lon1 csid dbLocs).1,
          (geofence_flag lat1 lon1 csid dbLocs).2⟩],
         [⟨sid, cid, d, st1, mby, lat1, lon1,
          (geofence_flag lat1 lon1 csid dbLocs).1,
          (geofence_flag lat1 lon1 csid dbLocs).2⟩]) := by
      show bulk_loop _ _ _ db [⟨sid, st1⟩] = _
      rw [bulk_loop_cons_none _ _ _ db ⟨sid, st1⟩ [] hfind1, bulk_loop_nil]
    rw [e1]
    have hkey1 : matchesKey sid d (⟨sid, cid, d, st1, mby, lat1, lon1,
        (geofence_flag lat1 lon1 csid dbLocs).1,
        (geofence_flag lat1 lon1 csid dbLocs).2⟩ : AttendanceRecord) = true := by
      simp [matchesKey]
    have hfind2 : (db ++ [(⟨sid, cid, d, st1, mby, lat1, lon1,
        (geofence_flag lat1 lon1 csid dbLocs).1,
        (geofence_flag lat1 lon1 csid dbLocs).2⟩ : AttendanceRecord)]).find?
          (matchesKey sid d) =
        some ⟨sid, cid, d, st1, mby, lat1, lon1,
          (geofence_flag lat1 lon1 csid dbLocs).1,
          (geofence_flag lat1 lon1 csid dbLocs).2⟩ := by
      rw [find?_append_left_none _ db _ hfind1]
      exact @List.find?_cons_of_pos _ (matchesKey sid d) _ [] hkey1
    have e2 : create_bulk_attendance
        (db ++ [⟨sid, cid, d, st1, mby, lat1, lon1,
          (geofence_flag lat1 lon1 csid dbLocs).1,
          (geofence_flag lat1 lon1 csid dbLocs).2⟩])
        dbLocs2 csid2 ⟨cid2, d, mby2, lat2, lon2, [⟨sid, st2⟩]⟩ =
        (db ++ [bulkUpdatedRecord ⟨cid2, d, mby2, lat2, lon2, [⟨sid, st2⟩]⟩
            (geofence_flag lat2 lon2 csid2 dbLocs2).1
            (geofence_flag lat2 lon2 csid2 dbLocs2).2 ⟨sid, st2⟩
            ⟨sid, cid, d, st1, mby, lat1, lon1,
              (geofence_flag lat1 lon1 csid dbLocs).1,
              (geofence_flag lat1 lon1 csid dbLocs).2⟩],
         [bulkUpdatedRecord ⟨cid2, d, mby2, lat2, lon2, [⟨sid, st2⟩]⟩
            (geofence_flag lat2 lon2 csid2 dbLocs2).1
            (geofence_flag lat2 lon2 csid2 dbLocs2).2 ⟨sid, st2⟩
            ⟨sid, cid, d, st1, mby, lat1, lon1,
              (geofence_flag lat1 lon1 csid dbLocs).1,
              (geofence_flag lat1 lon1 csid dbLocs).2⟩]) := by
      show bulk_loop _ _ _ _ [⟨sid, st2⟩] = _
      rw [bulk_loop_cons_some _ _ _ _ ⟨sid, st2⟩ [] _ hfind2, bulk_loop_nil]
      rw [replaceFirst_append_left_none _ _ db _ h,
        replaceFirst_cons_pos _ _ _ _ hkey1]
    rw [e2]
    have hkeyu : matchesKey sid d (bulkUpdatedRecord
        ⟨cid2, d, mby2, lat2, lon2, [⟨sid, st2⟩]⟩
        (geofence_flag lat2 lon2 csid2 dbLocs2).1
        (geofence_flag lat2 lon2 csid2 dbLocs2).2 ⟨sid, st2⟩
        ⟨sid, cid, d, st1, mby, lat1, lon1,
          (geofence_flag lat1 lon1 csid dbLocs).1,
          (geofence_flag lat1 lon1 csid dbLocs).2⟩) = true := by
      simp [matchesKey, bulkUpdatedRecord]
    constructor
    · rw [List.filter_append]
      rw [List.filter_eq_nil.mpr (fun r hr => by simp [h r hr])]
      simp [hkeyu]
    · intro r hr hkey
      rcases List.mem_append.mp hr with hmem | hmem
      · rw [h r hmem] at hkey
        exact absurd hkey (by simp)
      · rw [List.mem_singleton.mp hmem]
        rfl
  · intro db' dbLocs' ssid' data hex
    have hany : db'.any (matchesKey data.student_id data.date) = true := by
      rcases hex with ⟨r, hr, hp⟩
      exact List.any_eq_true.mpr ⟨r, hr, hp⟩
    unfold create_attendance_record
    rw [if_pos hany]

theorem claim_C2_witness :
    (∀ r ∈ ([] : List AttendanceRecord), matchesKey 7 "2024-01-10" r = false) ∧
    (((create_bulk_attendance
        (create_bulk_attendance [] [] 1 ⟨1, "2024-01-10", 9, none, none, [⟨7, "Present"⟩]⟩).1
        [] 1 ⟨1, "2024-01-10", 9, none, none, [⟨7, "Late"⟩]⟩).1.filter
      (matchesKey 7 "2024-01-10")).length = 1 ∧
     (∀ r ∈ (create_bulk_attendance
        (create_bulk_attendance [] [] 1 ⟨1, "2024-01-10", 9, none, none, [⟨7, "Present"⟩]⟩).1
        [] 1 ⟨1, "2024-01-10", 9, none, none, [⟨7, "Late"⟩]⟩).1,
       matchesKey 7 "2024-01-10" r = true → r.status = "Late")) :=
  ⟨fun r hr => absurd hr (List.not_mem_nil r),
   claim_C2_resubmission_bulk_overwrites_single_rejects.1 [] [] [] 1 1 1 1 9 9 7
     "2024-01-10" "Present" "Late" none none none none
     (fun r hr => absurd hr (List.not_mem_nil r))⟩

/-- C2 counterexample: on the single-record endpoint the claim fails. With
an empty table, submitting (student 7, date "2024-01-10") with status
"Present" stores one record; submitting again with status "Late" does not
overwrite: the call is rejected with a 400 error, the table is unchanged,
and the one stored record for the key still has status "Present", not
"Late". -/
theorem claim_C2_counterexample_single_endpoint_rejects :
    (create_attendance_record [] [] 1 ⟨7, 1, "2024-01-10", "Present", 9, none, none⟩).1 =
      [⟨7, 1, "2024-01-10", "Present", 9, none, none, false, none⟩] ∧
    create_attendance_record [⟨7, 1, "2024-01-10", "Present", 9, none, none, false, none⟩]
      [] 1 ⟨7, 1, "2024-01-10", "Late", 9, none, none⟩ =
      ([⟨7, 1, "2024-01-10", "Present", 9, none, none, false, none⟩],
       .error (.badRequest
         "Attendance record already exists for this student on this date")) ∧
    (([⟨7, 1, "2024-01-10", "Present", 9, none, none, false, none⟩] :
        List AttendanceRecord).filter (matchesKey 7 "2024-01-10")).length = 1 ∧
    ∀ r ∈ ([⟨7, 1, "2024-01-10", "Present", 9, none, none, false, none⟩] :
        List AttendanceRecord), r.status = "Present" ∧ r.status ≠ "Late" := by
  refine ⟨rfl, rfl, rfl, ?_⟩
  intro r hr
  rw [List.mem_singleton.mp hr]
  exact ⟨rfl, by decide⟩

lemma geoStep_eq (lat lon : ℝ) (st : Bool × Option (ℝ × AuthenticLocation))
    (location : AuthenticLocation) :
    geoStep lat lon st location =
      if zoneDist lat lon location ≤ (location.radius_meters : ℝ) then
        (true,
          match st.2 with
          | none => some (zoneDist lat lon location, location)
          | some (cd, cl) =>
            if zoneDist lat lon location < cd then
              some (zoneDist lat lon location, location)
            else some (cd, cl))
      else st := rfl

lemma scanInv_nil (lat lon : ℝ) : ScanInv lat lon [] (false, none) := by
  refine ⟨by simp, ?_⟩
  intro loc hmem
  exact absurd hmem (List.not_mem_nil loc)

lemma scanInv_step (lat lon : ℝ) (P : List AuthenticLocation)
    (st : Bool × Option (ℝ × AuthenticLocation)) (x : AuthenticLocation)
    (h : ScanInv lat lon P st) :
    ScanInv lat lon (P ++ [x]) (geoStep lat lon st x) := by
  obtain ⟨h1, h2⟩ := h
  rw [geoStep_eq]
  by_cases hadm : zoneDist lat lon x ≤ (x.radius_meters : ℝ)
  · rw [if_pos hadm]
    cases hst2 : st.2 with
    | none =>
      rw [hst2] at h2
      refine ⟨⟨fun _ => ⟨x, List.mem_append.mpr (Or.inr (List.mem_singleton.mpr rfl)), hadm⟩,
        fun _ => rfl⟩, ?_⟩
      refine ⟨rfl, hadm, rfl, P, [], rfl, ?_, ?_⟩
      · intro loc hmem hadm'
        exact absurd hadm' (h2 loc hmem)
      · intro loc hmem
        exact absurd hmem (List.not_mem_nil loc)
    | some pair =>
      obtain ⟨cd, cl⟩ := pair
      rw [hst2] at h2
      obtain ⟨hv, hacl, hcd, P1, P2, hsplit, hP1, hP2⟩ := h2
      show ScanInv lat lon (P ++ [x])
        (true, if zoneDist lat lon x < cd then some (zoneDist lat lon x, x)
          else some (cd, cl))
      have hle_all : ∀ loc ∈ P, admitsZone lat lon loc →
          zoneDist lat lon cl ≤ zoneDist lat lon loc := by
        intro loc hmem hadm'
        rw [hsplit] at hmem
        rcases List.mem_append.mp hmem with hm | hm
        · exact le_of_lt (hP1 loc hm hadm')
        · rcases List.mem_cons.mp hm with hm2 | hm2
          · rw [hm2]
          · exact hP2 loc hm2 hadm'
      by_cases hlt : zoneDist lat lon x < cd
      · rw [if_pos hlt]
        refine ⟨⟨fun _ => ⟨x, List.mem_append.mpr (Or.inr (List.mem_singleton.mpr rfl)), hadm⟩,
          fun _ => rfl⟩, ?_⟩
        refine ⟨rfl, hadm, rfl, P, [], rfl, ?_, ?_⟩
        · intro loc hmem hadm'
          have : zoneDist lat lon cl ≤ zoneDist lat lon loc := hle_all loc hmem hadm'
          calc zoneDist lat lon x < cd := hlt
            _ = zoneDist lat lon cl := hcd
            _ ≤ zoneDist lat lon loc := this
        · intro loc hmem
          exact absurd hmem (List.not_mem_nil loc)
      · rw [if_neg hlt]
        have hclP : cl ∈ P := by
          rw [hsplit]
          exact List.mem_append.mpr (Or.inr (List.mem_cons_self cl P2))
        refine ⟨⟨fun _ => ⟨cl, List.mem_append.mpr (Or.inl hclP), hacl⟩, fun _ => rfl⟩, ?_⟩
        refine ⟨rfl, hacl, hcd, P1, P2 ++ [x], ?_, hP1, ?_⟩
        · rw [hsplit, List.append_assoc, List.cons_append]
        · intro loc hmem hadm'
          rcases List.mem_append.mp hmem with hm | hm
          · exact hP2 loc hm hadm'
          · rw [List.mem_singleton.mp hm]
            rw [← hcd]
            exact not_lt.mp hlt
  · rw [if_neg hadm]
    constructor
    · rw [h1]
      constructor
      · intro hex
        obtain ⟨loc, hm, ha⟩ := hex
        exact ⟨loc, List.mem_append.mpr (Or.inl hm), ha⟩
      · intro hex
        obtain ⟨loc, hm, ha⟩ := hex
        rcases List.mem_append.mp hm with hm2 | hm2
        · exact ⟨loc, hm2, ha⟩
        · rw [List.mem_singleton.mp hm2] at ha
          exact absurd ha hadm
    · cases hst2 : st.2 with
      | none =>
        rw [hst2] at h2
        intro loc hmem
        rcases List.mem_append.mp hmem with hm | hm
        · exact h2 loc hm
        · rw [List.mem_singleton.mp hm]
          exact hadm
      | some pair =>
        obtain ⟨cd, cl⟩ := pair
        rw [hst2] at h2
        obtain ⟨hv, hacl, hcd, P1, P2, hsplit, hP1, hP2⟩ := h2
        refine ⟨hv, hacl, hcd, P1, P2 ++ [x], ?_, hP1, ?_⟩
        · rw [hsplit, List.append_assoc, List.cons_append]
        · intro loc hmem hadm'
          rcases List.mem_append.mp hmem with hm | hm
          · exact hP2 loc hm hadm'
          · rw [List.mem_singleton.mp hm] at hadm'
            exact absurd hadm' hadm

lemma scanInv_foldl (lat lon : ℝ) :
    ∀ (L P : List AuthenticLocation) (st : Bool × Option (ℝ × AuthenticLocation)),
      ScanInv lat lon P st →
      ScanInv lat lon (P ++ L) (L.foldl (geoStep lat lon) st) := by
  intro L
  induction L with
  | nil =>
    intro P st h
    simpa using h
  | cons x rest ih =>
    intro P st h
    rw [List.foldl_cons]
    have hstep := ih (P ++ [x]) (geoStep lat lon st x) (scanInv_step lat lon P st x h)
    rwa [List.append_assoc] at hstep

lemma scanInv_main (lat lon : ℝ) (L : List AuthenticLocation) :
    ScanInv lat lon L (L.foldl (geoStep lat lon) (false, none)) := by
  have h := scanInv_foldl lat lon L [] (false, none) (scanInv_nil lat lon)
  simpa using h

lemma foldl_min_le_init {α : Type} [LinearOrder α] :
    ∀ (xs : List α) (x : α), xs.foldl min x ≤ x := by
  intro xs
  induction xs with
  | nil =>
    intro x
    exact le_refl x
  | cons a l ih =>
    intro x
    rw [List.foldl_cons]
    exact le_trans (ih (min x a)) (min_le_left x a)

lemma foldl_min_le_mem {α : Type} [LinearOrder α] :
    ∀ (xs : List α) (x y : α), y ∈ xs → xs.foldl min x ≤ y := by
  intro xs
  induction xs with
  | nil =>
    intro x y h
    exact absurd h (List.not_mem_nil y)
  | cons a l ih =>
    intro x y h
    rw [List.foldl_cons]
    rcases List.mem_cons.mp h with h1 | h1
    · rw [h1]
      exact le_trans (foldl_min_le_init l (min x a)) (min_le_right x a)
    · exact ih (min x a) y h1

lemma foldl_min_mem {α : Type} [LinearOrder α] :
    ∀ (xs : List α) (x : α), xs.foldl min x = x ∨ xs.foldl min x ∈ xs := by
  intro xs
  induction xs with
  | nil =>
    intro x
    exact Or.inl rfl
  | cons a l ih =>
    intro x
    rw [List.foldl_cons]
    rcases ih (min x a) with h | h
    · rw [h]
      rcases le_total x a with hle | hle
      · exact Or.inl (min_eq_left hle)
      · right
        rw [min_eq_right hle]
        exact List.mem_cons_self a l
    · exact Or.inr (List.mem_cons_of_mem a h)

lemma minDistList_le (xs : List ℝ) (y : ℝ) (hy : y ∈ xs) : minDistList xs ≤ y := by
  cases xs with
  | nil => exact absurd hy (List.not_mem_nil y)
  | cons a l =>
    rw [minDistList]
    rcases List.mem_cons.mp hy with h | h
    · rw [h]
      exact foldl_min_le_init l a
    · exact foldl_min_le_mem l a y h

lemma minDistList_mem (xs : List ℝ) (hne : xs ≠ []) : minDistList xs ∈ xs := by
  cases xs with
  | nil => exact absurd rfl hne
  | cons a l =>
    rw [minDistList]
    rcases foldl_min_mem l a with h | h
    · rw [h]
      exact List.mem_cons_self a l
    · exact List.mem_cons_of_mem a h

lemma verify_attendance_location_eq (dbLocs : List AuthenticLocation)
    (school_id : Nat) (lat lon : ℝ) :
    verify_attendance_location dbLocs school_id lat lon =
      (if (activeZones dbLocs school_id).isEmpty then
        .error (.notFound "No authentic locations defined for this school")
      else if ((activeZones dbLocs school_id).foldl (geoStep lat lon) (false, none)).1 then
        (match ((activeZones dbLocs school_id).foldl (geoStep lat lon) (false, none)).2 with
         | some (cd, cl) => .ok ⟨true, cd, some cl.name⟩
         | none => .ok ⟨true, 0, none⟩)
      else
        .ok ⟨false, minDistList ((activeZones dbLocs school_id).map
          (zoneDist lat lon)), none⟩) := rfl

set_option maxHeartbeats 1000000 in
/-- C5: for a verification request against a school with a nonempty active
zone list, the endpoint answers (no 404) with `is_valid` true iff some
active zone admits the point; when valid, the reported distance and zone
name are those of the admitting zone with smallest distance, ties broken
by the first encountered in input order (zones earlier in the list that
admit are strictly farther); when invalid, the reported distance is the
minimum distance to any zone (it is a lower bound and is attained) and no
zone name is reported. -/
theorem claim_C5_verify_location_nearest_admitting_zone
    (dbLocs : List AuthenticLocation) (school_id : Nat) (lat lon : ℝ)
    (hne : activeZones dbLocs school_id ≠ []) :
    ∃ r : GPSVerificationResponse,
      verify_attendance_location dbLocs school_id lat lon = .ok r ∧
      (r.is_valid = true ↔
        ∃ loc ∈ activeZones dbLocs school_id, admitsZone lat lon loc) ∧
      (r.is_valid = true →
        ∃ P1 cl P2, activeZones dbLocs school_id = P1 ++ cl :: P2 ∧
          admitsZone lat lon cl ∧
          r.distance = zoneDist lat lon cl ∧
          r.location_name = some cl.name ∧
          (∀ loc ∈ activeZones dbLocs school_id, admitsZone lat lon loc →
            zoneDist lat lon cl ≤ zoneDist lat lon loc) ∧
          (∀ loc ∈ P1, admitsZone lat lon loc →
            zoneDist lat lon cl < zoneDist lat lon loc)) ∧
      (r.is_valid = false →
        r.location_name = none ∧
        (∀ loc ∈ activeZones dbLocs school_id, r.distance ≤ zoneDist lat lon loc) ∧
        (∃ loc ∈ activeZones dbLocs school_id, r.distance = zoneDist lat lon loc)) := by
  obtain ⟨h1, h2⟩ := scanInv_main lat lon (activeZones dbLocs school_id)
  rw [verify_attendance_location_eq dbLocs school_id lat lon]
  rw [if_neg (by simp [List.isEmpty_iff, hne])]
  cases hst1 : ((activeZones dbLocs school_id).foldl (geoStep lat lon) (false, none)).1 with
  | true =>
    rw [if_pos rfl]
    cases hst2 : ((activeZones dbLocs school_id).foldl (geoStep lat lon) (false, none)).2 with
    | none =>
      rw [hst2] at h2
      obtain ⟨loc, hmem, hadm⟩ := h1.mp hst1
      exact absurd hadm (h2 loc hmem)
    | some pair =>
      obtain ⟨cd, cl⟩ := pair
      rw [hst2] at h2
      obtain ⟨hv, hacl, hcd, P1, P2, hsplit, hP1, hP2⟩ := h2
      refine ⟨⟨true, cd, some cl.name⟩, rfl, ?_, ?_, ?_⟩
      · exact iff_of_true rfl ⟨cl, (by
          rw [hsplit]
          exact List.mem_append.mpr (Or.inr (List.mem_cons_self cl P2))), hacl⟩
      · intro _
        refine ⟨P1, cl, P2, hsplit, hacl, hcd, rfl, ?_, hP1⟩
        intro loc hmem hadm'
        rw [hsplit] at hmem
        rcases List.mem_append.mp hmem with hm | hm
        · exact le_of_lt (hP1 loc hm hadm')
        · rcases List.mem_cons.mp hm with hm2 | hm2
          · rw [hm2]
          · exact hP2 loc hm2 hadm'
      · intro hfalse
        exact absurd hfalse (by simp)
  | false =>
    rw [if_neg (by simp)]
    refine ⟨_, rfl, ?_, ?_, ?_⟩
    · refine iff_of_false (by simp) ?_
      intro hex
      have hcontra := h1.mpr hex
      rw [hst1] at hcontra
      exact Bool.noConfusion hcontra
    · intro htrue
      exact absurd htrue (by simp)
    · intro _
      refine ⟨rfl, ?_, ?_⟩
      · intro loc hmem
        exact minDistList_le ((activeZones dbLocs school_id).map (zoneDist lat lon))
          (zoneDist lat lon loc) (List.mem_map_of_mem (zoneDist lat lon) hmem)
      · have hne' : (activeZones dbLocs school_id).map (zoneDist lat lon) ≠ [] := by
          intro hnil
          exact hne (List.map_eq_nil.mp hnil)
        obtain ⟨loc, hmem, heq⟩ := List.mem_map.mp
          (minDistList_mem ((activeZones dbLocs school_id).map (zoneDist lat lon)) hne')
        exact ⟨loc, hmem, heq.symm⟩

theorem claim_C5_witness :
    (activeZones [⟨"gate", 1, 0, 0, 100, true⟩] 1 ≠ []) ∧
    ∃ r : GPSVerificationResponse,
      verify_attendance_location [⟨"gate", 1, 0, 0, 100, true⟩] 1 0 0 = .ok r ∧
      (r.is_valid = true ↔
        ∃ loc ∈ activeZones [⟨"gate", 1, 0, 0, 100, true⟩] 1, admitsZone 0 0 loc) ∧
      (r.is_valid = true →
        ∃ P1 cl P2, activeZones [⟨"gate", 1, 0, 0, 100, true⟩] 1 = P1 ++ cl :: P2 ∧
          admitsZone 0 0 cl ∧
          r.distance = zoneDist 0 0 cl ∧
          r.location_name = some cl.name ∧
          (∀ loc ∈ activeZones [⟨"gate", 1, 0, 0, 100, true⟩] 1, admitsZone 0 0 loc →
            zoneDist 0 0 cl ≤ zoneDist 0 0 loc) ∧
          (∀ loc ∈ P1, admitsZone 0 0 loc →
            zoneDist 0 0 cl < zoneDist 0 0 loc)) ∧
      (r.is_valid = false →
        r.location_name = none ∧
        (∀ loc ∈ activeZones [⟨"gate", 1, 0, 0, 100, true⟩] 1,
          r.distance ≤ zoneDist 0 0 loc) ∧
        (∃ loc ∈ activeZones [⟨"gate", 1, 0, 0, 100, true⟩] 1,
          r.distance = zoneDist 0 0 loc)) :=
  ⟨by simp [activeZones],
   claim_C5_verify_location_nearest_admitting_zone [⟨"gate", 1, 0, 0, 100, true⟩] 1 0 0
     (by simp [activeZones])⟩

end EDRP
